import Mathlib

/-!
Verification development for the `gpt-agent` conversational task-assistant
backend.  The JavaScript source (src/index.js, src/chatSession.js and the
related controller revisions) is shallowly embedded below: strings are lists
of characters, every regular expression of the source is implemented as an
explicit character-level matcher with the same backtracking behaviour, and
the stateful controller paths are modelled as pure functions of the state
and of the (externally supplied) language-model output.
-/

set_option maxRecDepth 10000
set_option maxHeartbeats 4000000

namespace GptAgent

/-- Character lists; the working representation of JavaScript strings. -/
abbrev Str := List Char

/-- JavaScript `\s` restricted to the ASCII range used by this code base. -/
def jsWs (c : Char) : Bool :=
  c = ' ' || c = '\t' || c = '\n' || c = '\r' || c = '\x0b' || c = '\x0c'

def isDigitChar (c : Char) : Bool := '0' ≤ c && c ≤ '9'

def isUpperAZ (c : Char) : Bool := 'A' ≤ c && c ≤ 'Z'

/-- JavaScript `\w`: letters, digits and underscore. -/
def isWordChar (c : Char) : Bool :=
  ('a' ≤ c && c ≤ 'z') || isUpperAZ c || isDigitChar c || c = '_'

/-- ASCII lower-casing, modelling `String.prototype.toLowerCase` on the
ASCII texts this code manipulates. -/
def lcChar (c : Char) : Char :=
  if isUpperAZ c then Char.ofNat (c.toNat + 32) else c

def jsToLowerL (s : Str) : Str := s.map lcChar

def jsToLower (s : String) : String := ⟨jsToLowerL s.data⟩

/-- JavaScript `String.prototype.trim`. -/
def jsTrimL (s : Str) : Str :=
  ((s.dropWhile (fun c => jsWs c)).reverse.dropWhile (fun c => jsWs c)).reverse

/-- Match a literal pattern at the head of the input (case sensitive),
returning the consumed original characters and the remainder. -/
def chop : Str → Str → Option (Str × Str)
  | [], s => some ([], s)
  | _ :: _, [] => none
  | p :: ps, c :: cs =>
    if p = c then (chop ps cs).map (fun pr => (c :: pr.1, pr.2)) else none

/-- Match a literal pattern at the head of the input, case insensitively
(the `i` regex flag), returning consumed original characters and remainder. -/
def chopCi : Str → Str → Option (Str × Str)
  | [], s => some ([], s)
  | _ :: _, [] => none
  | p :: ps, c :: cs =>
    if lcChar p = lcChar c then (chopCi ps cs).map (fun pr => (c :: pr.1, pr.2)) else none

def startsLit (p s : Str) : Bool := (chop p s).isSome

def startsLitCi (p s : Str) : Bool := (chopCi p s).isSome

/-- `String.prototype.includes` (case sensitive). -/
def containsLit (p : Str) : Str → Bool
  | [] => startsLit p []
  | c :: rest => startsLit p (c :: rest) || containsLit p rest

/-- Leftmost application of a position matcher (regex search semantics). -/
def scanFirst {α : Type} (m : Str → Option α) : Str → Option α
  | [] => m []
  | c :: rest =>
    match m (c :: rest) with
    | some a => some a
    | none => scanFirst m rest

/-- Leftmost search carrying the previous character, for `\b` boundaries. -/
def scanAnyB (m : Option Char → Str → Bool) : Option Char → Str → Bool
  | prev, [] => m prev []
  | prev, c :: rest => m prev (c :: rest) || scanAnyB m (some c) rest

def scanAny (m : Str → Bool) : Str → Bool
  | [] => m []
  | c :: rest => m (c :: rest) || scanAny m rest

/-- `String.prototype.replace(literalString, "")`: removes the first
occurrence of `pat` (a plain string, not a regex). -/
def replaceFirstLit (pat : Str) : Str → Str
  | [] => []
  | c :: rest =>
    match chop pat (c :: rest) with
    | some (_, after) => after
    | none => c :: replaceFirstLit pat rest

def boundaryB (prev : Option Char) : Bool :=
  match prev with
  | none => true
  | some c => !isWordChar c

def afterBoundaryOk : Str → Bool
  | [] => true
  | c :: _ => !isWordChar c

def endsWithChar (s : Str) (c : Char) : Bool :=
  match s.getLast? with
  | some x => x = c
  | none => false

/-! ## Task records (src/index.js)

A task is a record with `title`, `description` and `timeEstimate`.  Missing
or otherwise falsy JavaScript fields are modelled by the empty string. -/

structure Task where
  title : String
  description : String
  timeEstimate : String
deriving DecidableEq, Repr

/-! ## extractTasksFromReply (src/index.js lines 29-183)

Each regular expression of the source is implemented as an explicit matcher
with JavaScript backtracking semantics. -/

/-- Core of `/Task\s*(\d+)[:\)]/i`: `Task` (ci), `\s*`, `\d+`, `[:\)]`.
Returns the remainder after the match.  The quantified pieces are character
classes pairwise disjoint from what follows them, so greedy matching needs
no backtracking here. -/
def matchTaskNumAt (s : Str) : Option Str :=
  match chopCi "Task".data s with
  | none => none
  | some (_, r1) =>
    let r2 := r1.dropWhile (fun c => jsWs c)
    let ds := r2.takeWhile (fun c => isDigitChar c)
    if ds.isEmpty then none
    else
      match r2.drop ds.length with
      | c :: rest => if c = ':' || c = ')' then some rest else none
      | [] => none

/-- `/(?:#{1,3}\s*)?Task\s*\d+[:\)]/i` at a position.  Since `#` is neither
whitespace nor `T`/`t`, the optional prefix collapses: a run of 1-3 `#` must
be consumed entirely (a longer run cannot match at this position), and with
no `#` the bare `Task...` body must match. -/
def matchS1At (s : Str) : Option Str :=
  let hs := s.takeWhile (fun c => c = '#')
  if hs.length = 0 then matchTaskNumAt s
  else if hs.length ≤ 3 then matchTaskNumAt ((s.drop hs.length).dropWhile (fun c => jsWs c))
  else none

/-- `/###\s*Task:?\s*/i` at a position, returning the remainder.  The
optional `:` and the trailing `\s*` are greedy; nothing follows them in the
pattern, so consuming them when present is exact. -/
def matchS2At (s : Str) : Option Str :=
  match chop "###".data s with
  | none => none
  | some (_, r1) =>
    match chopCi "Task".data (r1.dropWhile (fun c => jsWs c)) with
    | none => none
    | some (_, r2) =>
      let r3 := match r2 with
        | ':' :: t => t
        | other => other
      some (r3.dropWhile (fun c => jsWs c))

/-- `/(\d+)[:.]\s*([A-Z][^.]*(?:\.|$))/` at a position.  After the capital
letter, `[^.]*(?:\.|$)` always succeeds (greedy run of non-dots followed by
either a dot or the end of the string), so only the prefix is tested. -/
def numUpperAt (s : Str) : Bool :=
  let ds := s.takeWhile (fun c => isDigitChar c)
  !ds.isEmpty &&
    (match s.drop ds.length with
     | c :: r1 =>
       (c = ':' || c = '.') &&
         (match r1.dropWhile (fun x => jsWs x) with
          | u :: _ => isUpperAZ u
          | [] => false)
     | [] => false)

/-- `/(?:#{1,3}\s*)?(\d+)[:.]\s*([A-Z][^.]*(?:\.|$))/` at a position; the
optional hash prefix collapses as in `matchS1At`. -/
def numUpperHashAt (s : Str) : Bool :=
  let hs := s.takeWhile (fun c => c = '#')
  if hs.length = 0 then numUpperAt s
  else if hs.length ≤ 3 then numUpperAt ((s.drop hs.length).dropWhile (fun c => jsWs c))
  else false

/-- `/###\s*Task:?\s*(.*?)(?=###|$)/is` as a test: the lazy group with its
lookahead always succeeds, so the test reduces to finding `###\s*Task`. -/
def hashTaskAt (s : Str) : Bool :=
  match chop "###".data s with
  | some (_, r) => startsLitCi "Task".data (r.dropWhile (fun c => jsWs c))
  | none => false

/-- `hasTaskIndicators`: the five `taskPatterns` of the source, each used
with `.test` (fresh regex objects, so `lastIndex` never interferes). -/
def hasTaskIndicators (r : Str) : Bool :=
  scanAny (fun s => (matchS1At s).isSome) r
  || scanAny numUpperAt r
  || scanAny numUpperHashAt r
  || scanAny hashTaskAt r
  || scanAny (fun s => startsLitCi "**Title:**".data s) r

/-- Split on every occurrence of a separator matcher; the separator always
consumes at least one character, so fuel `|s| + 1` is sufficient
(`String.prototype.split` semantics, no capture groups in the patterns). -/
def splitMatcherAt (m : Str → Option Str) : Str → Option (Str × Str)
  | [] => (m []).map (fun r => (([] : Str), r))
  | c :: rest =>
    match m (c :: rest) with
    | some r => some ([], r)
    | none => (splitMatcherAt m rest).map (fun pr => (c :: pr.1, pr.2))

def splitOnP (m : Str → Option Str) : Nat → Str → List Str
  | 0, s => [s]
  | Nat.succ fuel, s =>
    match splitMatcherAt m s with
    | some (before, rest) => before :: splitOnP m fuel rest
    | none => [s]

/-- `\s*([^…]+)` with JavaScript backtracking: the greedy `\s*` gives back
characters until the mandatory group can start.  Returns
`(whitespace consumed, captured group, remainder)`. -/
def wsGroup (excl : Char → Bool) : Str → Option (Str × Str × Str)
  | [] => none
  | c :: cs =>
    if jsWs c then
      match wsGroup excl cs with
      | some (w, g, r) => some (c :: w, g, r)
      | none =>
        if excl c then none
        else some ([], (c :: cs).takeWhile (fun x => !excl x), (c :: cs).dropWhile (fun x => !excl x))
    else if excl c then none
    else some ([], (c :: cs).takeWhile (fun x => !excl x), (c :: cs).dropWhile (fun x => !excl x))

def starExcl (c : Char) : Bool := c = '*' || c = '\n'

def dotExcl (c : Char) : Bool := c = '.' || c = '\n'

/-- `/(?:\*\*)?(?:Title:|Task:)(?:\*\*)?\s*([^*\n]+)/i` at a position,
returning `(matched text, captured group)`.  Both optional `\*\*` groups are
deterministic: when the stars are present, not consuming them puts `*` in
front of a piece that cannot accept it. -/
def matchT1At (s : Str) : Option (Str × Str) :=
  let p1 := match chop "**".data s with
    | some (a, r) => (a, r)
    | none => (([] : Str), s)
  match (chopCi "Title:".data p1.2).orElse (fun _ => chopCi "Task:".data p1.2) with
  | none => none
  | some (lab, s2) =>
    let p2 := match chop "**".data s2 with
      | some (a, r) => (a, r)
      | none => (([] : Str), s2)
    match wsGroup starExcl p2.2 with
    | none => none
    | some (w, g, _) => some (p1.1 ++ lab ++ p2.1 ++ w ++ g, g)

/-- Second alternative of the fallback title pattern: `([^.:\n]+)`. -/
def matchT2Alt2 (s : Str) : Option (Str × Str) :=
  let g := s.takeWhile (fun c => !(c = '.' || c = ':' || c = '\n'))
  if g.isEmpty then none else some (g, g)

/-- `/(?:\*\*([^*]+)\*\*|([^.:\n]+))/` (case sensitive) at a position. -/
def matchT2At (s : Str) : Option (Str × Str) :=
  match chop "**".data s with
  | some (_, r) =>
    let g := r.takeWhile (fun c => c ≠ '*')
    if g.isEmpty then matchT2Alt2 s
    else
      match chop "**".data (r.drop g.length) with
      | some _ => some ("**".data ++ g ++ "**".data, g)
      | none => matchT2Alt2 s
  | none => matchT2Alt2 s

/-- `(?:\*\*)?` with genuine backtracking: try consuming the stars first,
fall back to the continuation on the unconsumed input. -/
def optStars (s : Str) (pre : Str) (k : Str → Str → Option (Str × Str)) : Option (Str × Str) :=
  match chop "**".data s with
  | some (st, r) =>
    match k (pre ++ st) r with
    | some x => some x
    | none => k pre s
  | none => k pre s

/-- `(?::|is)?\s*([^X]+)` with the source alternation order `:`, `is`,
empty, each with full backtracking into the group. -/
def optColonIsTail (excl : Char → Bool) (pre : Str) (s4 : Str) : Option (Str × Str) :=
  (match s4 with
   | ':' :: r => (wsGroup excl r).map (fun (t : Str × Str × Str) => (pre ++ [':'] ++ t.1 ++ t.2.1, t.2.1))
   | _ => none)
  |>.orElse (fun _ =>
    match chopCi "is".data s4 with
    | some (isTxt, r) => (wsGroup excl r).map (fun (t : Str × Str × Str) => (pre ++ isTxt ++ t.1 ++ t.2.1, t.2.1))
    | none => none)
  |>.orElse (fun _ => (wsGroup excl s4).map (fun (t : Str × Str × Str) => (pre ++ t.1 ++ t.2.1, t.2.1)))

/-- `/(?:\*\*)?Time\s*Estimate(?:\*\*)?(?::|is)?\s*([^.\n]+)/i`. -/
def matchTi1At (s : Str) : Option (Str × Str) :=
  let p1 := match chop "**".data s with
    | some (a, r) => (a, r)
    | none => (([] : Str), s)
  match chopCi "Time".data p1.2 with
  | none => none
  | some (t1, s2) =>
    let w1 := s2.takeWhile (fun c => jsWs c)
    match chopCi "Estimate".data (s2.drop w1.length) with
    | none => none
    | some (t2, s3) => optStars s3 (p1.1 ++ t1 ++ w1 ++ t2) (optColonIsTail dotExcl)

/-- `/(?:\*\*)?Estimated\s*Time(?:\*\*)?(?::|is)?\s*([^.\n]+)/i`. -/
def matchTi2At (s : Str) : Option (Str × Str) :=
  let p1 := match chop "**".data s with
    | some (a, r) => (a, r)
    | none => (([] : Str), s)
  match chopCi "Estimated".data p1.2 with
  | none => none
  | some (t1, s2) =>
    let w1 := s2.takeWhile (fun c => jsWs c)
    match chopCi "Time".data (s2.drop w1.length) with
    | none => none
    | some (t2, s3) => optStars s3 (p1.1 ++ t1 ++ w1 ++ t2) (optColonIsTail dotExcl)

/-- `/(?:\*\*)?Duration(?:\*\*)?(?::|is)?\s*([^.\n]+)/i`. -/
def matchTi3At (s : Str) : Option (Str × Str) :=
  let p1 := match chop "**".data s with
    | some (a, r) => (a, r)
    | none => (([] : Str), s)
  match chopCi "Duration".data p1.2 with
  | none => none
  | some (t1, s3) => optStars s3 (p1.1 ++ t1) (optColonIsTail dotExcl)

/-- `/Takes\s*about\s*([^.\n]+)/i`. -/
def matchTi4At (s : Str) : Option (Str × Str) :=
  match chopCi "Takes".data s with
  | none => none
  | some (t1, r1) =>
    let w1 := r1.takeWhile (fun c => jsWs c)
    match chopCi "about".data (r1.drop w1.length) with
    | none => none
    | some (t2, r2) =>
      (wsGroup dotExcl r2).map (fun t => (t1 ++ w1 ++ t2 ++ t.1 ++ t.2.1, t.2.1))

/-- `.replace(/\*\*/g, '')`: left-to-right non-overlapping removal. -/
def removeStars : Str → Str
  | '*' :: '*' :: r => removeStars r
  | c :: r => c :: removeStars r
  | [] => []

/-- `.replace(/\n{3,}/g, '\n\n')`: maximal newline runs of length ≥ 3
become exactly two newlines. -/
def collapseNl : Str → Str
  | [] => []
  | c :: rest =>
    if c = '\n' then
      let run := rest.takeWhile (fun x => x = '\n')
      let tl := rest.drop run.length
      if run.length + 1 ≥ 3 then '\n' :: '\n' :: collapseNl tl
      else c :: (run ++ collapseNl tl)
    else c :: collapseNl rest
termination_by s => s.length
decreasing_by
  · simp only [List.length_drop, List.length_cons]; omega
  · simp only [List.length_drop, List.length_cons]; omega
  · simp only [List.length_cons]; omega

def defaultTimeEstimate : Str := "1 hour".data

/-- Body of the per-section loop of `extractTasksFromReply` (lines 66-119):
title extraction (two patterns, first match wins), time-estimate extraction
(four patterns), literal-string removal of both matches from the
description, `**`/newline cleanup and the `Task {n}` title substitute for
empty or over-50-character titles. -/
def parseTaskSection (sec0 : Str) (i : Nat) : Task :=
  let sec := jsTrimL sec0
  let tm := (scanFirst matchT1At sec).orElse (fun _ => scanFirst matchT2At sec)
  let title1 : Str := match tm with
    | some (_, g) => jsTrimL g
    | none => []
  let desc1 : Str := match tm with
    | some (m0, _) => jsTrimL (replaceFirstLit m0 sec)
    | none => sec
  let tmt := ((scanFirst matchTi1At sec).orElse (fun _ => scanFirst matchTi2At sec)).orElse
    (fun _ => (scanFirst matchTi3At sec).orElse (fun _ => scanFirst matchTi4At sec))
  let time1 : Str := match tmt with
    | some (_, g) => jsTrimL g
    | none => defaultTimeEstimate
  let desc2 : Str := match tmt with
    | some (m0, _) => jsTrimL (replaceFirstLit m0 desc1)
    | none => desc1
  let desc3 := jsTrimL (collapseNl (removeStars desc2))
  let title2 := if title1.isEmpty || title1.length > 50
    then "Task ".data ++ (toString (i + 1)).data
    else title1
  ⟨⟨title2⟩, ⟨desc3⟩, ⟨time1⟩⟩

def sectionsToTasks : Nat → List Str → List Task
  | _, [] => []
  | i, sec :: rest => parseTaskSection sec i :: sectionsToTasks (i + 1) rest

/-- Lazy group of `/\*\*Description:\*\*\s*([\s\S]*?)(?=\*\*Time|\*\*Estimated|$)/i`:
text up to the first `**Time`/`**Estimated` (ci) or the end. -/
def descGroup : Str → Str
  | [] => []
  | c :: rest =>
    if startsLitCi "**Time".data (c :: rest) || startsLitCi "**Estimated".data (c :: rest)
    then []
    else c :: descGroup rest

def findDescAt (s : Str) : Option Str :=
  match chopCi "**Description:**".data s with
  | none => none
  | some (_, r) => some (descGroup (r.dropWhile (fun c => jsWs c)))

/-- `/\*\*Title:\*\*\s*([^*\n]+)/i` at a position, returning the group. -/
def matchTMTitleAt (s : Str) : Option Str :=
  match chopCi "**Title:**".data s with
  | none => none
  | some (_, r) => (wsGroup starExcl r).map (fun t => t.2.1)

/-- `/\*\*Time\s*Estimate:\*\*\s*([^*\n]+)/i` at a position. -/
def matchTMTime1At (s : Str) : Option Str :=
  match chopCi "**Time".data s with
  | none => none
  | some (_, r1) =>
    match chopCi "Estimate:**".data (r1.dropWhile (fun c => jsWs c)) with
    | none => none
    | some (_, r3) => (wsGroup starExcl r3).map (fun t => t.2.1)

/-- `/\*\*Estimated\s*Time:\*\*\s*([^*\n]+)/i` at a position. -/
def matchTMTime2At (s : Str) : Option Str :=
  match chopCi "**Estimated".data s with
  | none => none
  | some (_, r1) =>
    match chopCi "Time:**".data (r1.dropWhile (fun c => jsWs c)) with
    | none => none
    | some (_, r3) => (wsGroup starExcl r3).map (fun t => t.2.1)

/-- The `**Description:**` branch (lines 124-138).  Returns `none` both when
the description pattern fails and when the title pattern fails, in which
case the source falls through to the numbered-list branch. -/
def descBranchTasks (r : Str) : Option (List Task) :=
  match scanFirst findDescAt r with
  | none => none
  | some desc =>
    match scanFirst matchTMTitleAt r with
    | none => none
    | some g =>
      let time : Str :=
        match (scanFirst matchTMTime1At r).orElse (fun _ => scanFirst matchTMTime2At r) with
        | some tg => jsTrimL tg
        | none => defaultTimeEstimate
      some [⟨⟨jsTrimL g⟩, ⟨jsTrimL desc⟩, ⟨time⟩⟩]

/-- `/^(\d+)[:.]\s*(.+)$/` on an already-trimmed line, returning group 2.
Because the line is trimmed, the `\s*`/`(.+)` backtracking case (an
all-whitespace tail) cannot arise. -/
def lineTaskMatch (line : Str) : Option Str :=
  let ds := line.takeWhile (fun c => isDigitChar c)
  if ds.isEmpty then none
  else
    match line.drop ds.length with
    | c :: r =>
      if c = ':' || c = '.' then
        let r2 := r.dropWhile (fun x => jsWs x)
        if r2.isEmpty then none else some r2
      else none
    | [] => none

/-- `/(?:time|duration|estimate)s?:?\s*(\d+\s*(?:hour|hr|minute|min|day)s?)/i`
at a position, returning group 1.  The alternatives have pairwise distinct
first letters and nothing follows the group, so the optional pieces are
deterministic. -/
def tepAt (s : Str) : Option Str :=
  match ((chopCi "time".data s).orElse (fun _ => chopCi "duration".data s)).orElse
      (fun _ => chopCi "estimate".data s) with
  | none => none
  | some (_, r1) =>
    let r2 := match r1 with
      | c :: t => if lcChar c = 's' then t else c :: t
      | [] => []
    let r3 := match r2 with
      | ':' :: t => t
      | other => other
    let r4 := r3.dropWhile (fun c => jsWs c)
    let ds := r4.takeWhile (fun c => isDigitChar c)
    if ds.isEmpty then none
    else
      let r5 := r4.drop ds.length
      let w2 := r5.takeWhile (fun c => jsWs c)
      let r6 := r5.drop w2.length
      match (((chopCi "hour".data r6).orElse (fun _ => chopCi "hr".data r6)).orElse
          (fun _ => chopCi "minute".data r6)).orElse
          (fun _ => (chopCi "min".data r6).orElse (fun _ => chopCi "day".data r6)) with
      | none => none
      | some (u, r7) =>
        let sfx : Str := match r7 with
          | c :: _ => if lcChar c = 's' then [c] else []
          | [] => []
        some (ds ++ w2 ++ u ++ sfx)

/-- `reply.split('\n')`. -/
def splitLines : Str → List Str
  | [] => [[]]
  | c :: rest =>
    if c = '\n' then [] :: splitLines rest
    else
      match splitLines rest with
      | [] => [[c]]
      | l :: ls => (c :: l) :: ls

/-- Numbered-list accumulation loop (lines 146-172).  The source tests the
time pattern and then re-matches it; the two always agree (same stateless
regex), so the `else` that would append the line to the description inside
the time branch is dead and the match result is reused here. -/
def numberedLoop : List Str → Option Task → List Task
  | [], none => []
  | [], some t => [t]
  | rawLine :: rest, cur =>
    let line := jsTrimL rawLine
    match lineTaskMatch line with
    | some g2 =>
      let newTask : Task := ⟨⟨jsTrimL g2⟩, "", "1 hour"⟩
      match cur with
      | some t => t :: numberedLoop rest (some newTask)
      | none => numberedLoop rest (some newTask)
    | none =>
      match cur with
      | some t =>
        match scanFirst tepAt line with
        | some grp => numberedLoop rest (some { t with timeEstimate := ⟨grp⟩ })
        | none =>
          if !line.isEmpty then
            numberedLoop rest (some { t with description := t.description ++ ⟨line ++ ['\n']⟩ })
          else numberedLoop rest (some t)
      | none => numberedLoop rest none

/-- Final `forEach` trimming the accumulated descriptions. -/
def finalizeTask (t : Task) : Task :=
  { t with description := ⟨jsTrimL t.description.data⟩ }

def numberedTasks (r : Str) : List Task :=
  (numberedLoop (splitLines r) none).map finalizeTask

/-- The `taskSections` computation of `extractTasksFromReply` (lines 51-63):
split on the first section pattern that tests positive; a positive test
always yields at least one section after `slice(1)`, so the loop's `break`
fires on the first hit. -/
def taskSectionsOf (r : Str) : List Str :=
  let s1Secs : List Str :=
    if scanAny (fun s => (matchS1At s).isSome) r then
      (splitOnP matchS1At (r.length + 1) r).drop 1
    else []
  if !s1Secs.isEmpty then s1Secs
  else if scanAny (fun s => (matchS2At s).isSome) r then
    (splitOnP matchS2At (r.length + 1) r).drop 1
  else []

/-- `extractTasksFromReply` (src/index.js lines 29-183).  `None` models the
JavaScript `null` return; a non-string or empty `reply` is falsy. -/
def extractTasksFromReply (reply : String) : Option (List Task) :=
  if reply = "" then none
  else
    let r := reply.data
    if !hasTaskIndicators r then none
    else
      let taskSections : List Str := taskSectionsOf r
      if !taskSections.isEmpty then
        let tasks := sectionsToTasks 0 taskSections
        if !tasks.isEmpty then some tasks else none
      else
        match descBranchTasks r with
        | some ts => some ts
        | none =>
          let ts := numberedTasks r
          if !ts.isEmpty then some ts else none

/-! ## detectQuestionsInTasks (src/index.js lines 1092-1131) -/

def interrogatives : List String :=
  ["what", "how", "where", "when", "why", "which", "who", "whom"]

def auxVerbs : List String :=
  ["do", "does", "did", "is", "are", "am", "can", "could", "would", "should", "will",
   "have", "has", "had"]

def questionPronouns : List String := ["you", "your", "we", "I"]

/-- `/\?$/` on the title. -/
def endsWithQm (t : Str) : Bool := endsWithChar t '?'

/-- `/^(what|how|where|when|why|which|who|whom)\b/i`. -/
def startsInterrogative (t : Str) : Bool :=
  interrogatives.any (fun w =>
    match chopCi w.data t with
    | some (_, r) => afterBoundaryOk r
    | none => false)

/-- `/\b(do|does|…)\s+(you|your|we|I)\b/i` at a position. -/
def auxPronAt (prev : Option Char) (s : Str) : Bool :=
  boundaryB prev &&
    auxVerbs.any (fun a =>
      match chopCi a.data s with
      | some (_, r1) =>
        let w := r1.takeWhile (fun c => jsWs c)
        !w.isEmpty &&
          questionPronouns.any (fun p =>
            match chopCi p.data (r1.drop w.length) with
            | some (_, r2) => afterBoundaryOk r2
            | none => false)
      | none => false)

/-- `/\b…\b/i` for a fixed word or phrase. -/
def containsWordCi (w : Str) (s : Str) : Bool :=
  scanAnyB
    (fun prev t =>
      boundaryB prev &&
        (match chopCi w t with
         | some (_, r) => afterBoundaryOk r
         | none => false))
    none s

/-- The `strongQuestionPatterns` of the source, tested on a title. -/
def strongQuestionTest (title : Str) : Bool :=
  endsWithQm title
  || startsInterrogative title
  || scanAnyB auxPronAt none title
  || containsWordCi "tell me".data title
  || containsWordCi "let me know".data title

def actionVerbs : List String :=
  ["create", "build", "develop", "implement", "set up", "configure", "optimize",
   "improve", "fix", "add", "remove", "update", "modify"]

/-- `/^(create|build|…)/i` — anchored prefix, no trailing `\b`. -/
def startsActionVerb (s : Str) : Bool :=
  actionVerbs.any (fun w => startsLitCi w.data s)

/-- `/\bstep\s*\d+\b/i` at a position. -/
def stepNumAt (prev : Option Char) (s : Str) : Bool :=
  boundaryB prev &&
    (match chopCi "step".data s with
     | some (_, r1) =>
       let r2 := r1.dropWhile (fun c => jsWs c)
       let ds := r2.takeWhile (fun c => isDigitChar c)
       !ds.isEmpty && afterBoundaryOk (r2.drop ds.length)
     | none => false)

def timeUnitWords : List String := ["hour", "minute", "day", "week"]

/-- `/\b(hour|minute|day|week)\b/i`. -/
def hasTimeUnitWord (s : Str) : Bool :=
  timeUnitWords.any (fun w => containsWordCi w.data s)

/-- `/\bby\s+(using|implementing|adding|following)/i` at a position. -/
def byGerundAt (prev : Option Char) (s : Str) : Bool :=
  boundaryB prev &&
    (match chopCi "by".data s with
     | some (_, r1) =>
       let w := r1.takeWhile (fun c => jsWs c)
       !w.isEmpty &&
         ["using", "implementing", "adding", "following"].any
           (fun g => startsLitCi (String.data g) (r1.drop w.length))
     | none => false)

/-- The `taskPatterns` of `detectQuestionsInTasks`, tested on one string. -/
def taskPatternTest (s : Str) : Bool :=
  startsActionVerb s || scanAnyB stepNumAt none s || hasTimeUnitWord s
  || scanAnyB byGerundAt none s

def questionCountOf (tasks : List Task) : Nat :=
  (tasks.filter (fun t => strongQuestionTest t.title.data)).length

def taskCountOf (tasks : List Task) : Nat :=
  (tasks.filter (fun t =>
    taskPatternTest t.title.data || (t.description != "" && taskPatternTest t.description.data))).length

def userQueryTest (t : Task) : Bool :=
  let lct := jsToLowerL t.title.data
  (containsLit "your".data lct || containsLit "you ".data lct)
  && !containsLit "should".data lct
  && decide (t.description.length < 20)

def userQueryCountOf (tasks : List Task) : Nat :=
  (tasks.filter userQueryTest).length

/-- JavaScript `Math.ceil(tasks.length / 2)` on a natural number. -/
def jsCeilHalf (n : Nat) : Nat := (n + 1) / 2

/-- `detectQuestionsInTasks` (src/index.js lines 1092-1131). -/
def detectQuestionsInTasks (tasks : List Task) : Bool :=
  if tasks.isEmpty then false
  else
    let totalQuestionIndicators := questionCountOf tasks + userQueryCountOf tasks
    decide (totalQuestionIndicators > taskCountOf tasks)
    || decide (totalQuestionIndicators ≥ jsCeilHalf tasks.length)
    || (tasks.all (fun t => decide (t.description.length < 30))
        && decide (totalQuestionIndicators > 0))

/-! ## convertTasksToReply (src/index.js lines 1134-1160) -/

/-- `/^(create|implement|build|develop|improve)/i` guard of the converter. -/
def convertTitleAdjust (title : String) : String :=
  let td := title.data
  if !endsWithChar td '?' && !endsWithChar td '.' && !endsWithChar td '!'
      && !(["create", "implement", "build", "develop", "improve"].any
            (fun w => startsLitCi w.data td))
  then title ++ "?" else title

def convertLoop (total : Nat) : Nat → List Task → String
  | _, [] => ""
  | i, t :: rest =>
    let title := convertTitleAdjust t.title
    let base := toString (i + 1) ++ ". " ++ title ++ "\n"
    let base2 := if jsTrimL t.description.data ≠ [] then
        base ++ "   " ++ (⟨jsTrimL t.description.data⟩ : String) ++ "\n"
      else base
    let base3 := if i < total - 1 then base2 ++ "\n" else base2
    base3 ++ convertLoop total (i + 1) rest

def convertTasksToReply (tasks : List Task) : String :=
  if tasks.isEmpty then ""
  else
    "Before I can provide specific tasks, I need to understand more about your situation:\n\n"
    ++ convertLoop tasks.length 0 tasks
    ++ "\n\nOnce you provide this information, I\x27ll be able to suggest specific, tailored tasks for you."

/-! ## getFallbackTasksByType (src/index.js lines 992-1089)

`none` models a session whose `taskType` is still `null`; the `switch`
falls through to the `general` set for it and for every unknown string. -/

def websiteFallbackTasks : List Task :=
  [⟨"Audit Website Content and Structure",
    "Conduct a complete inventory of all website pages and content. Identify outdated information, broken links, and opportunities for improvement. Create a spreadsheet to track each page, its purpose, and status.",
    "3 hours"⟩,
   ⟨"Improve Website User Experience",
    "Test your website\x27s navigation flow and identify points of friction. Simplify menus, improve page loading speed, and ensure mobile responsiveness. Consider implementing user feedback mechanisms.",
    "4 hours"⟩,
   ⟨"Create a Content Update Schedule",
    "Develop a calendar for regular content updates and new publications. Plan topics that align with user interests and business goals. Establish a workflow for content creation, review, and publication.",
    "2 hours"⟩]

def businessFallbackTasks : List Task :=
  [⟨"Define Key Performance Indicators",
    "Identify 3-5 critical metrics that directly reflect business success. Create a tracking system to monitor these metrics regularly. Define baseline values and set realistic improvement targets.",
    "2 hours"⟩,
   ⟨"Streamline Business Processes",
    "Map out current workflows and identify bottlenecks. Remove unnecessary steps and automate repetitive tasks where possible. Document improved processes and train team members on changes.",
    "4 hours"⟩,
   ⟨"Develop Customer Feedback System",
    "Create a mechanism to regularly collect customer insights. Design short, focused surveys or implement review requests. Establish a process to analyze feedback and take action on common themes.",
    "3 hours"⟩]

def educationFallbackTasks : List Task :=
  [⟨"Create a Structured Learning Plan",
    "Break down the subject into manageable topics and subtopics. Sequence them in a logical order with time estimates for each. Identify resources needed for each topic and set completion milestones.",
    "2 hours"⟩,
   ⟨"Implement Active Learning Techniques",
    "Convert passive study materials into active learning activities. Create practice questions, flashcards, or teaching materials. Schedule regular self-assessment to test understanding.",
    "3 hours"⟩,
   ⟨"Build a Comprehensive Resource Library",
    "Gather and organize all learning materials in one accessible location. Categorize resources by topic and format. Create a system to track which resources have been completed.",
    "2 hours"⟩]

def personalFallbackTasks : List Task :=
  [⟨"Create a Productivity System",
    "Select and set up a task management tool that fits your workflow. Define categories for different areas of your life and establish a regular review process. Implement time blocking for important activities.",
    "2 hours"⟩,
   ⟨"Establish Daily Routines",
    "Design morning and evening routines that support your goals. Start with 2-3 keystone habits and gradually expand. Track adherence to routines for at least 30 days to build consistency.",
    "1 hour"⟩,
   ⟨"Set Up Progress Tracking",
    "Define measurable indicators for your personal goals. Create a simple dashboard or journal system to monitor these regularly. Schedule weekly reviews to assess progress and make adjustments.",
    "2 hours"⟩]

def generalFallbackTasks : List Task :=
  [⟨"Define Clear Objectives",
    "Identify specific, measurable goals related to your project or area of focus. Break larger goals into smaller milestones with deadlines. Document success criteria for each objective.",
    "2 hours"⟩,
   ⟨"Create an Action Plan",
    "List all required steps to achieve your objectives in sequential order. Identify resources, tools, and information needed for each step. Assign priorities and estimate completion times.",
    "3 hours"⟩,
   ⟨"Implement a Tracking System",
    "Set up a method to monitor progress on your action items. Choose a tool (digital or physical) that fits your workflow. Establish a regular review schedule to assess progress and make adjustments.",
    "2 hours"⟩]

def getFallbackTasksByType (taskType : Option String) : List Task :=
  if taskType = some "website" then websiteFallbackTasks
  else if taskType = some "business" then businessFallbackTasks
  else if taskType = some "education" then educationFallbackTasks
  else if taskType = some "personal" then personalFallbackTasks
  else generalFallbackTasks

/-! ## Validation and padding of a raw task list

The per-field coercions and the `slice(0, 3)` / `while (length < 3)` padding
loop shared by the generation paths (src/index.js lines 950-958 and the
analogous blocks). -/

def jsOrS (a b : String) : String := if a = "" then b else a

def validateTask (t : Task) : Task :=
  ⟨jsOrS t.title "Untitled Task", jsOrS t.description "No description provided",
   jsOrS t.timeEstimate "1 hour"⟩

/-- One iteration of `validatedTasks.push(fallbackTasks[validatedTasks.length - 1])`.
The out-of-range default mirrors the (unreachable for non-empty input)
`undefined` push of the source. -/
def pushFallbackTask (l fb : List Task) : List Task :=
  l ++ [fb.getD (l.length - 1) ⟨"", "", ""⟩]

/-- The `while (validatedTasks.length < 3)` loop; it runs at most three
times, each iteration growing the list by one. -/
def padTasksTo3 (l fb : List Task) : List Task :=
  let l1 := if l.length < 3 then pushFallbackTask l fb else l
  let l2 := if l1.length < 3 then pushFallbackTask l1 fb else l1
  if l2.length < 3 then pushFallbackTask l2 fb else l2

def validatedTaskSet (raw : List Task) (tt : Option String) : List Task :=
  padTasksTo3 ((raw.map validateTask).take 3) (getFallbackTasksByType tt)

/-! ## The Response Assembler: ensureTasksInTasksArray (src/index.js 1163-1221)

A controller response is `{tasks, reply}`; `sidProp` records whether the
object carries an own `sessionId` property (the conversion branch of the
assembler creates one, copying the — absent, hence `undefined` — input
field, which later overrides the route handler\x27s `sessionId` in the spread
`{sessionId: currentSessionId, ...response}` and is then dropped by JSON
serialization). -/

structure Response where
  tasks : List Task
  reply : String
  sidProp : Bool
deriving DecidableEq, Repr

def movedTasksReply : String :=
  "I\x27ve generated the following tasks based on our conversation. Would you like me to explain any of them in more detail?"

def preparedTasksReply : String := "Here are the tasks I\x27ve prepared for you."

/-- Steps 2-4 of the assembler: question conversion for a non-empty tasks
array, then the reply simplification when the reply itself still contains
extractable task content. -/
def ensureStep2to4 (r : Response) : Response :=
  if r.tasks.length > 0 && detectQuestionsInTasks r.tasks then
    { tasks := [], reply := convertTasksToReply r.tasks, sidProp := true }
  else if r.tasks.length > 0 && !detectQuestionsInTasks r.tasks then
    if r.reply != "" && (extractTasksFromReply r.reply).isSome then
      { r with reply := preparedTasksReply }
    else r
  else r

/-- `ensureTasksInTasksArray`: step 1 recovers tasks from the reply when the
tasks array is empty; a questionnaire classification of the recovered tasks
returns the response unchanged (early `return response`). -/
def ensureTasksInTasksArray (r : Response) : Response :=
  if r.tasks.isEmpty && r.reply != "" then
    match extractTasksFromReply r.reply with
    | some ts =>
      if ts.length > 0 then
        if detectQuestionsInTasks ts then r
        else ensureStep2to4 { r with tasks := ts, reply := movedTasksReply }
      else ensureStep2to4 r
    | none => ensureStep2to4 r
  else ensureStep2to4 r

/-! ## Reachable controller outputs (src/index.js processMessage, 480-989)

`processMessage` returns, on every non-throwing path, one of:
  * `{reply, tasks: []}` with an arbitrary model-produced reply string
    (questioning, tool-call, continuation and question-conversion paths);
  * `{tasks: validatedTasks, reply}` with the validated, padded task list
    — returned only after `detectQuestionsInTasks(validatedTasks)` was
    checked false — and one of two fixed confirmation replies;
  * `{tasks: getFallbackTasksByType(taskType), reply}` with one of the
    fixed fallback replies (the local `catch` branches). -/

def generatedTasksReply : String :=
  "Here are some tasks based on our conversation. Would you like to make any adjustments to these tasks?"

def updatedTasksReply : String :=
  "I\x27ve updated the tasks based on your feedback. Do these align better with what you were looking for?"

def fallbackUpdateReply : String :=
  "I had trouble updating the tasks. Would you like to give me more specific guidance on what changes you\x27d like to see?"

def fallbackGenerateReply : String :=
  "Here are some suggested tasks. Would you like me to adjust these based on any additional information?"

inductive ReachableResponse : Response → Prop
  | questioning (reply : String) : ReachableResponse ⟨[], reply, false⟩
  | generated (raw : List Task) (tt : Option String) (reply : String)
      (hraw : raw ≠ [])
      (hreply : reply = generatedTasksReply ∨ reply = updatedTasksReply)
      (hq : detectQuestionsInTasks (validatedTaskSet raw tt) = false) :
      ReachableResponse ⟨validatedTaskSet raw tt, reply, false⟩
  | fallback (tt : Option String) (reply : String)
      (hreply : reply = fallbackUpdateReply ∨ reply = fallbackGenerateReply) :
      ReachableResponse ⟨getFallbackTasksByType tt, reply, false⟩

/-- The `POST /chat` handler merge `{sessionId: currentSessionId, ...response}`
followed by `res.json`: an own `sessionId: undefined` property of the spread
response overrides the handler value and is dropped by JSON serialization,
so the serialized body carries no `sessionId` field (`none`). -/
def chatResponseSessionId (currentSessionId : String) (resp : Response) : Option String :=
  if resp.sidProp then none else some currentSessionId

/-! ## Session store (src/chatSession.js, final revision — src/unnamed/part_006
lines 266-410) -/

inductive Role
  | system
  | user
  | assistant
  | tool
deriving DecidableEq, Repr

structure Message where
  role : Role
  content : String
deriving DecidableEq, Repr

structure Session where
  messages : List Message
  taskType : Option String
  questionCount : Nat
  hasEnoughContext : Bool
  tasksGenerated : Bool
deriving DecidableEq, Repr

def initialSystemMessage : Message :=
  ⟨Role.system,
   "You are an AI assistant specializing in task creation for any domain. Your goal is to help users break down complex goals into actionable tasks. Follow this process:\n\n1) Ask 1-2 brief clarifying questions to understand the user\x27s specific needs. Focus on their goals and challenges. Keep questions brief and direct.\n\n2) After gathering basic information, generate EXACTLY 3 specific, actionable tasks that directly address the user\x27s goal.\n\n3) Each task must include: (a) A clear, specific title describing what needs to be done (b) A detailed description with step-by-step instructions (c) A realistic time estimate.\n\nMake all tasks immediately actionable, specific to the user\x27s situation, and provide clear value."⟩

def freshSession : Session :=
  ⟨[initialSystemMessage], none, 0, false, false⟩

/-- `/https?:\/\/[^\s]+/` at a position (case sensitive; the source applies
it to an already lower-cased string).  Backtracking from the optional `s`
cannot succeed because `:` differs from `s`. -/
def urlAt (s : Str) : Bool :=
  match chop "http".data s with
  | none => false
  | some (_, r1) =>
    let afterScheme : Str → Bool := fun r =>
      match chop "://".data r with
      | some (_, r2) =>
        match r2 with
        | c :: _ => !jsWs c
        | [] => false
      | none => false
    match r1 with
    | 's' :: r => afterScheme r
    | _ => afterScheme r1

/-- Domain classification of `addMessage` (part_006 lines 306-328), applied
to the lower-cased content of a user message. -/
def classifyTaskType (content : String) : String :=
  let c := (jsToLower content).data
  if containsLit "website".data c || containsLit "seo".data c || containsLit "web".data c
      || containsLit "url".data c || scanAny urlAt c then "website"
  else if containsLit "business".data c || containsLit "company".data c
      || containsLit "startup".data c || containsLit "product".data c
      || containsLit "market".data c || containsLit "customer".data c then "business"
  else if containsLit "learn".data c || containsLit "study".data c
      || containsLit "education".data c || containsLit "course".data c then "education"
  else if containsLit "personal".data c || containsLit "life".data c
      || containsLit "habit".data c || containsLit "goal".data c then "personal"
  else "general"

/-- The assistant-question detector of `addMessage` (part_006 lines 330-336). -/
def isQuestionMessage (m : Message) : Bool :=
  m.role == Role.assistant
  && (endsWithChar m.content.data '?'
      || containsLit "Could you".data m.content.data
      || containsLit "Can you".data m.content.data)

/-- `addMessage` (part_006 lines 289-346).  The null-content validation of
the source is implicit here (`content` is a total `String`).  The source
mutates the session field by field; the fields touched are pairwise
distinct, so the result is assembled in one record: the domain is
classified only while still `null` and only from a user message, the
question counter increments on assistant questions, and the context check
reads the user-message count before the push and the question counter
after the possible increment, as in the source. -/
def addMessage (s : Session) (m : Message) : Session :=
  let newTaskType := if s.taskType = none ∧ m.role = Role.user
    then some (classifyTaskType m.content) else s.taskType
  let newQuestionCount := if isQuestionMessage m
    then s.questionCount + 1 else s.questionCount
  let userCount := (s.messages.filter (fun x => x.role == Role.user)).length
  let newHasEnoughContext := if userCount ≥ 2 ∨ newQuestionCount ≥ 2
    then true else s.hasEnoughContext
  { messages := s.messages ++ [m],
    taskType := newTaskType,
    questionCount := newQuestionCount,
    hasEnoughContext := newHasEnoughContext,
    tasksGenerated := s.tasksGenerated }

def explicitTaskRequests : List String :=
  ["please generate tasks", "generate tasks now", "create tasks for me",
   "give me the tasks", "show me tasks now", "i want the tasks now",
   "finish the tasks", "generate the final tasks"]

/-- `isReadyForTasks` (part_006 lines 359-389). -/
def isReadyForTasks (s : Session) : Bool :=
  let userMessages := s.messages.filter (fun x => x.role == Role.user)
  let lastUserMessage := jsToLower (match userMessages.getLast? with
    | some m => m.content
    | none => "")
  let hasExplicitRequest :=
    explicitTaskRequests.any (fun p => containsLit p.data lastUserMessage.data)
  let hasSubstantialConversation :=
    decide (userMessages.length ≥ 2) && decide (s.questionCount ≥ 2)
  hasExplicitRequest || hasSubstantialConversation

def markTasksGenerated (s : Session) : Session := { s with tasksGenerated := true }

def resetQuestionCount (s : Session) : Session := { s with questionCount := 0 }

/-- The module-level `sessions` map. -/
def SessionStore : Type := String → Option Session

/-- `getSession`: creates the fresh session lazily. -/
def getSession (store : SessionStore) (sessionId : String) : Session :=
  match store sessionId with
  | some s => s
  | none => freshSession

def setSession (store : SessionStore) (sessionId : String) (s : Session) : SessionStore :=
  fun k => if k = sessionId then some s else store k

/-- `clearSession`: `sessions.delete(sessionId)`. -/
def clearSession (store : SessionStore) (sessionId : String) : SessionStore :=
  fun k => if k = sessionId then none else store k

/-! ## generateTasks (controller revision src/unnamed/part_001, lines 743-857)

The Language Model Gateway call is an input: it either throws (also
covering the timeout) or yields content whose `JSON.parse` result is given
as a duck-typed shape (`none` models a parse failure). -/

inductive ParsedJson
  | arr (tasks : List Task)
  | obj (tasks : Option (List Task)) (title description timeEstimate : String) (reply : String)
deriving Repr

inductive GatewayResult
  | failure
  | ok (parsed : Option ParsedJson)
deriving Repr

/-- The duck-typed resolution of `parsedData` into a task list. -/
def tasksListOf (p : ParsedJson) : List Task :=
  match p with
  | .arr l => l
  | .obj (some ts) _ _ _ _ => ts
  | .obj none t d e _ => if t ≠ "" ∧ d ≠ "" ∧ e ≠ "" then [⟨t, d, e⟩] else []

def replyFieldOf (p : ParsedJson) : String :=
  match p with
  | .arr _ => ""
  | .obj _ _ _ _ r => r

def generateTasks (tt : Option String) (gw : GatewayResult) : Response :=
  match gw with
  | .failure =>
    { tasks := getFallbackTasksByType tt,
      reply := "I encountered an error while generating tasks. Here are some general suggestions instead.",
      sidProp := false }
  | .ok none =>
    { tasks := getFallbackTasksByType tt,
      reply := "I had some trouble generating custom tasks. Here are some suggestions to get you started.",
      sidProp := false }
  | .ok (some p) =>
    let tl0 := tasksListOf p
    let tl1 :=
      if tl0.isEmpty && replyFieldOf p != "" then
        match extractTasksFromReply (replyFieldOf p) with
        | some ts => if !ts.isEmpty then ts else tl0
        | none => tl0
      else tl0
    let tl2 := if tl1.isEmpty then getFallbackTasksByType tt else tl1
    let validated := padTasksTo3 ((tl2.map validateTask).take 3) (getFallbackTasksByType tt)
    if detectQuestionsInTasks validated then
      { tasks := [], reply := convertTasksToReply validated, sidProp := false }
    else
      { tasks := validated, reply := generatedTasksReply, sidProp := false }

/-- The task-modification branch of `processMessage` in src/index.js
(lines 505-589): once tasks exist and the user asks for changes, the
controller regenerates tasks from the feedback.  Its
`openai.chat.completions.create` call (line 515) sits OUTSIDE the `try`
that only begins at line 524, so a thrown or timed-out gateway call
propagates out of `processMessage` (modelled by `Except.error ()`) and is
answered by the `/chat` route handler's 500.  Only a `JSON.parse` failure
on delivered content is caught locally (lines 582-588).  The session-state
and cleanup side effects of the success path are not part of the returned
value and are elided. -/
def processTaskModification (tt : Option String) (gw : GatewayResult) :
    Except Unit Response :=
  match gw with
  | .failure => Except.error ()
  | .ok none =>
    Except.ok { tasks := getFallbackTasksByType tt, reply := fallbackUpdateReply,
                sidProp := false }
  | .ok (some p) =>
    let tl0 := tasksListOf p
    let tl1 :=
      if tl0.isEmpty && replyFieldOf p != "" then
        match extractTasksFromReply (replyFieldOf p) with
        | some ts => if !ts.isEmpty then ts else tl0
        | none => tl0
      else tl0
    let tl2 := if tl1.isEmpty then getFallbackTasksByType tt else tl1
    let validated := padTasksTo3 ((tl2.map validateTask).take 3) (getFallbackTasksByType tt)
    if detectQuestionsInTasks validated then
      Except.ok { tasks := [], reply := convertTasksToReply validated, sidProp := false }
    else
      Except.ok { tasks := validated, reply := updatedTasksReply, sidProp := false }

/-! ## handleTaskEditing (controller revision src/unnamed/part_003, 684-894)

Tasks of this revision carry an ordinal `id` (absent on the fallback
catalog entries, hence `Option Nat`). -/

structure TaskE where
  id : Option Nat
  title : String
  description : String
  timeEstimate : String
deriving DecidableEq, Repr

/-- Validation of the retrieved task list (part_003 lines 740-745). -/
def validateExistingTask (index : Nat) (t : TaskE) : TaskE :=
  { id := some (t.id.getD (index + 1)),
    title := jsOrS ⟨jsTrimL t.title.data⟩ "Untitled Task",
    description := jsOrS ⟨jsTrimL t.description.data⟩ "No description provided.",
    timeEstimate := jsOrS ⟨jsTrimL t.timeEstimate.data⟩ "1 hour" }

/-- The duck-typed property lookup of the edit completion (part_003 lines
796-801): `title || Title`, `description || Description`,
`timeEstimate || "Time Estimate" || TimeEstimate`; absent properties are
the empty string. -/
structure RawEditedTask where
  title : String
  titleCap : String
  description : String
  descriptionCap : String
  timeEstimate : String
  timeEstimateSpaced : String
  timeEstimateCap : String
deriving Repr

def normalizeEdited (raw : RawEditedTask) : Task :=
  ⟨jsOrS raw.title raw.titleCap,
   jsOrS raw.description raw.descriptionCap,
   jsOrS raw.timeEstimate (jsOrS raw.timeEstimateSpaced raw.timeEstimateCap)⟩

/-- The updated task before the no-op check (part_003 lines 803-809):
original fields as fallbacks for missing edited fields, everything
trimmed, the ordinal `id` preserved. -/
def updatedTaskOf (orig : TaskE) (raw : RawEditedTask) : TaskE :=
  let editedTask := normalizeEdited raw
  { id := orig.id,
    title := ⟨jsTrimL (jsOrS editedTask.title orig.title).data⟩,
    description := ⟨jsTrimL (jsOrS editedTask.description orig.description).data⟩,
    timeEstimate := ⟨jsTrimL (jsOrS editedTask.timeEstimate orig.timeEstimate).data⟩ }

/-- No-op detection by field equality and the forced mutation
(part_003 lines 811-822). -/
def forceChangeIfNoop (orig u : TaskE) : TaskE :=
  if u.title ≠ orig.title ∨ u.description ≠ orig.description
      ∨ u.timeEstimate ≠ orig.timeEstimate
  then u
  else
    { u with
      title := "Updated: " ++ u.title,
      description := u.description ++ "\n\nThis task has been reviewed and updated." }

/-- The splice of the edited task (part_003 lines 803-829):
`updatedTasks = [...existingTasks]; updatedTasks[specificTaskIndex] = updatedTask`. -/
def applyTaskEdit (existingTasks : List TaskE) (specificTaskIndex : Nat)
    (raw : RawEditedTask) : List TaskE :=
  let orig := existingTasks.getD specificTaskIndex ⟨none, "", "", ""⟩
  existingTasks.set specificTaskIndex (forceChangeIfNoop orig (updatedTaskOf orig raw))

def websiteKeywords : List String :=
  ["website", "web page", "webpage", "web site", "site", "landing page",
   "homepage", "blog", "seo", "search engine", "domain", "url", "link",
   "html", "css", "javascript", "web design", "web development", "wordpress",
   "analytics", "google analytics", "sitemap", "hosting", "traffic",
   "browser", "online presence", "web content", "meta tag"]

def isWebsiteRelatedTask (t : TaskE) : Bool :=
  if t.title = "" || t.description = "" then false
  else
    let combined := jsToLowerL t.title.data ++ (' ' :: jsToLowerL t.description.data)
    websiteKeywords.any (fun k => containsLit k.data combined)

def checkForWebsiteTasks (tasks : List TaskE) : Bool :=
  if tasks.isEmpty then false else tasks.any isWebsiteRelatedTask

/-- Catalog entries as this revision returns them from its catch branches
(plain tasks, no `id` property). -/
def catalogTasksE (tt : Option String) : List TaskE :=
  (getFallbackTasksByType tt).map (fun t => ⟨none, t.title, t.description, t.timeEstimate⟩)

structure EditResponse where
  tasks : List TaskE
  reply : String
deriving Repr

inductive EditGatewayResult
  | failure
  | ok (raw : RawEditedTask)
deriving Repr

def editSuccessReply (editedTaskIndex : Nat) (updatedTasks : List TaskE) : String :=
  let base := "I\x27ve updated Task " ++ toString (editedTaskIndex + 1)
    ++ " as requested, while keeping the other tasks unchanged. Would you like to make any other changes?"
  if checkForWebsiteTasks updatedTasks then
    base ++ " Since these tasks relate to website work, it would be helpful if you could share the website URL you\x27re working with (optional). This will allow me to provide more specific guidance."
  else base

/-- The specific-index branch of `handleTaskEditing` (part_003 lines
753-876): the gateway failure (thrown call, or `JSON.parse` failure on its
content) is caught locally and answered with the fallback catalog. -/
def handleSpecificTaskEdit (tt : Option String) (existingTasks : List TaskE)
    (specificTaskIndex : Nat) (gw : EditGatewayResult) : EditResponse :=
  match gw with
  | .failure =>
    { tasks := catalogTasksE tt,
      reply := "I encountered an error while trying to update task. Here are some alternatives." }
  | .ok raw =>
    let updatedTasks := applyTaskEdit existingTasks specificTaskIndex raw
    { tasks := updatedTasks, reply := editSuccessReply specificTaskIndex updatedTasks }

/-- The outer catch of `handleTaskEditing` (part_003 lines 884-894). -/
def handleTaskEditingOuterCatch (tt : Option String) : EditResponse :=
  { tasks := catalogTasksE tt,
    reply := "I encountered an error while trying to update the tasks. Here are some alternatives." }

/-! ## Spec-side formulations -/

/-- `ceil(n/2)` as the specification writes it. -/
def ceilHalf (n : Nat) : Nat := n - n / 2

/-- The questionnaire rule exactly as the specification states it:
`(questionCount + userQueryCount) > taskCount`, or
`(questionCount + userQueryCount) ≥ ceil(n/2)`, or every description is
under 30 characters and at least one question indicator exists. -/
def questionnaireSpecFormula (tasks : List Task) : Bool :=
  let q := questionCountOf tasks
  let u := userQueryCountOf tasks
  let t := taskCountOf tasks
  decide (q + u > t) || decide (q + u ≥ ceilHalf tasks.length)
  || (tasks.all (fun x => decide (x.description.length < 30)) && decide (q + u > 0))

/-- Lower-cased content of the latest user message, as the spec describes
the readiness short-circuit input. -/
def lastUserMessageLower (s : Session) : String :=
  jsToLower (match (s.messages.filter (fun x => x.role == Role.user)).getLast? with
    | some m => m.content
    | none => "")

/-- The spec-side explicit-request predicate: one of the fixed high-confidence
phrases occurs in the latest user message. -/
def hasExplicitTaskRequest (s : Session) : Bool :=
  explicitTaskRequests.any (fun p => containsLit p.data (lastUserMessageLower s).data)

def userMessageCount (s : Session) : Nat :=
  (s.messages.filter (fun x => x.role == Role.user)).length

/-! ## Concrete inputs used by witnesses -/

def c3WitnessResponse : Response :=
  ⟨[⟨"Create a plan", "Write steps to follow for one hour", "1 hour"⟩], "", false⟩

def c4ExampleTasks : List TaskE :=
  [⟨some 1, "Draft outline", "Write the outline", "1 hour"⟩,
   ⟨some 2, "Review draft", "Read and annotate", "2 hours"⟩,
   ⟨some 3, "Publish post", "Upload and share", "1 hour"⟩]

def c4ExampleRaw : RawEditedTask := ⟨"", "", "", "", "", "", ""⟩

def c7WitnessSession : Session :=
  ⟨[initialSystemMessage, ⟨Role.user, "help with my plan"⟩,
    ⟨Role.assistant, "Could you tell me more?"⟩, ⟨Role.user, "sure, details"⟩],
   some "general", 2, true, false⟩

/-! # Theorems -/

/-! ## Helper lemmas about the fallback catalog and task validation -/

theorem getFallbackTasksByType_cases (tt : Option String) :
    getFallbackTasksByType tt = websiteFallbackTasks
    ∨ getFallbackTasksByType tt = businessFallbackTasks
    ∨ getFallbackTasksByType tt = educationFallbackTasks
    ∨ getFallbackTasksByType tt = personalFallbackTasks
    ∨ getFallbackTasksByType tt = generalFallbackTasks := by
  unfold getFallbackTasksByType
  split_ifs <;> tauto

theorem catalog_length (tt : Option String) : (getFallbackTasksByType tt).length = 3 := by
  rcases getFallbackTasksByType_cases tt with h | h | h | h | h <;> rw [h] <;> rfl

theorem catalog_wellformed (tt : Option String) :
    ∀ t ∈ getFallbackTasksByType tt,
      t.title ≠ "" ∧ t.description ≠ "" ∧ t.timeEstimate ≠ "" := by
  rcases getFallbackTasksByType_cases tt with h | h | h | h | h <;> rw [h] <;> decide

theorem catalog_not_questions (tt : Option String) :
    detectQuestionsInTasks (getFallbackTasksByType tt) = false := by
  rcases getFallbackTasksByType_cases tt with h | h | h | h | h <;> rw [h] <;> decide

theorem validateTask_wellformed (t : Task) :
    (validateTask t).title ≠ "" ∧ (validateTask t).description ≠ ""
    ∧ (validateTask t).timeEstimate ≠ "" := by
  unfold validateTask jsOrS
  refine ⟨?_, ?_, ?_⟩ <;> dsimp only <;> split <;> simp_all

theorem padTasksTo3_length (l fb : List Task) (h1 : l ≠ []) (h2 : l.length ≤ 3) :
    (padTasksTo3 l fb).length = 3 := by
  match l, h1 with
  | [a], _ => rfl
  | [a, b], _ => rfl
  | [a, b, c], _ => rfl
  | a :: b :: c :: d :: rest, _ => simp at h2

theorem padTasksTo3_mem (l fb : List Task) (h1 : l ≠ []) (hfb : fb.length = 3) :
    ∀ t ∈ padTasksTo3 l fb, t ∈ l ∨ t ∈ fb := by
  obtain ⟨f0, f1, f2, rfl⟩ : ∃ x y z, fb = [x, y, z] := by
    match fb, hfb with
    | [x, y, z], _ => exact ⟨x, y, z, rfl⟩
  match l, h1 with
  | [a], _ =>
    have h : padTasksTo3 [a] [f0, f1, f2] = [a, f0, f1] := rfl
    rw [h]; intro t ht; simp only [List.mem_cons, List.mem_singleton] at ht ⊢; tauto
  | [a, b], _ =>
    have h : padTasksTo3 [a, b] [f0, f1, f2] = [a, b, f1] := rfl
    rw [h]; intro t ht; simp only [List.mem_cons, List.mem_singleton] at ht ⊢; tauto
  | a :: b :: c :: rest, _ =>
    have h3 : ¬((a :: b :: c :: rest).length < 3) := by simp only [List.length_cons]; omega
    simp only [padTasksTo3, if_neg h3]
    exact fun t ht => Or.inl ht

theorem validatedTaskSet_shape (raw : List Task) (tt : Option String) (h : raw ≠ []) :
    (validatedTaskSet raw tt).length = 3 ∧
    ∀ t ∈ validatedTaskSet raw tt,
      t.title ≠ "" ∧ t.description ≠ "" ∧ t.timeEstimate ≠ "" := by
  have hl : (raw.map validateTask).take 3 ≠ [] := by
    cases raw with
    | nil => exact absurd rfl h
    | cons a l => simp [List.take]
  have hlen : ((raw.map validateTask).take 3).length ≤ 3 := by
    exact List.length_take_le 3 (raw.map validateTask)
  constructor
  · exact padTasksTo3_length _ _ hl hlen
  · intro t ht
    rcases padTasksTo3_mem _ _ hl (catalog_length tt) t ht with hmem | hmem
    · have : t ∈ raw.map validateTask := List.mem_of_mem_take hmem
      rcases List.mem_map.mp this with ⟨x, _, rfl⟩
      exact validateTask_wellformed x
    · exact catalog_wellformed tt t hmem

/-! ## Extraction yields nothing on the fixed confirmation replies -/

theorem extract_movedTasksReply : extractTasksFromReply movedTasksReply = none := by decide

theorem extract_preparedTasksReply : extractTasksFromReply preparedTasksReply = none := by decide

theorem extract_generatedTasksReply : extractTasksFromReply generatedTasksReply = none := by decide

theorem extract_updatedTasksReply : extractTasksFromReply updatedTasksReply = none := by decide

theorem extract_fallbackUpdateReply : extractTasksFromReply fallbackUpdateReply = none := by decide

theorem extract_fallbackGenerateReply : extractTasksFromReply fallbackGenerateReply = none := by decide

/-! ## Structure of the assembler -/

theorem ensureStep2to4_empty (r : Response) (h : r.tasks = []) : ensureStep2to4 r = r := by
  unfold ensureStep2to4
  simp [h]

theorem ensureStep2to4_not_questions (r : Response) (hne : r.tasks ≠ [])
    (hq : detectQuestionsInTasks r.tasks = false) :
    ensureStep2to4 r =
      if r.reply != "" && (extractTasksFromReply r.reply).isSome
      then { r with reply := preparedTasksReply } else r := by
  have hlen : 0 < r.tasks.length := List.length_pos.mpr hne
  unfold ensureStep2to4
  simp [hq, hlen]

theorem ensureStep2to4_sidProp (r : Response)
    (h : r.tasks = [] ∨ detectQuestionsInTasks r.tasks = false) :
    (ensureStep2to4 r).sidProp = r.sidProp := by
  rcases h with h | h
  · rw [ensureStep2to4_empty r h]
  · by_cases hne : r.tasks = []
    · rw [ensureStep2to4_empty r hne]
    · rw [ensureStep2to4_not_questions r hne h]
      split <;> rfl

theorem bool_and_true {a b : Bool} (h : (a && b) = true) : a = true ∧ b = true := by
  cases a <;> cases b <;> simp_all

theorem tasks_isEmpty_false {l : List Task} (h : l ≠ []) : l.isEmpty = false := by
  cases hl : l.isEmpty
  · rfl
  · exact absurd (List.isEmpty_iff.mp hl) h

/-- Pass-through: a response whose tasks are non-empty and not
question-like, and whose reply holds no extractable task content, is
returned unchanged by the assembler. -/
theorem ensure_passthrough (r : Response) (hne : r.tasks ≠ [])
    (hq : detectQuestionsInTasks r.tasks = false)
    (hr : r.reply = "" ∨ extractTasksFromReply r.reply = none) :
    ensureTasksInTasksArray r = r := by
  have hempty : r.tasks.isEmpty = false := tasks_isEmpty_false hne
  have hguard : (r.tasks.isEmpty && r.reply != "") = false := by rw [hempty]; rfl
  unfold ensureTasksInTasksArray
  rw [hguard]
  simp only [Bool.false_eq_true, if_false]
  rw [ensureStep2to4_not_questions r hne hq]
  rcases hr with hr | hr
  · simp [hr]
  · simp [hr]

/-- Every assembler output either has an empty tasks array or is in the
pass-through fixed-point region: its tasks are classified as non-questions
and its reply holds no extractable task content. -/
theorem ensure_cases (r : Response) :
    (ensureTasksInTasksArray r).tasks = []
    ∨ (detectQuestionsInTasks (ensureTasksInTasksArray r).tasks = false
       ∧ ((ensureTasksInTasksArray r).reply = ""
          ∨ extractTasksFromReply (ensureTasksInTasksArray r).reply = none)
       ∧ (ensureTasksInTasksArray r).tasks ≠ []) := by
  unfold ensureTasksInTasksArray
  by_cases hg : (r.tasks.isEmpty && r.reply != "") = true
  · obtain ⟨ha, _⟩ := bool_and_true hg
    have htasks : r.tasks = [] := List.isEmpty_iff.mp ha
    rw [hg]
    simp only [if_true]
    cases hx : extractTasksFromReply r.reply with
    | none =>
      rw [ensureStep2to4_empty r htasks]
      exact Or.inl htasks
    | some ts =>
      by_cases hts : ts.length > 0
      · simp only [hts, if_true]
        by_cases hdq : detectQuestionsInTasks ts = true
        · simp only [hdq, if_true]
          exact Or.inl htasks
        · have hdq' : detectQuestionsInTasks ts = false := by
            cases h2 : detectQuestionsInTasks ts
            · rfl
            · exact absurd h2 hdq
          simp only [hdq', Bool.false_eq_true, if_false]
          have htsne : ts ≠ [] := by
            intro hn; rw [hn] at hts; exact absurd hts (by simp)
          rw [ensureStep2to4_not_questions ⟨ts, movedTasksReply, r.sidProp⟩ htsne hdq']
          have hmov : (movedTasksReply != "" && (extractTasksFromReply movedTasksReply).isSome) = false := by
            rw [extract_movedTasksReply]; rfl
          rw [hmov]
          simp only [Bool.false_eq_true, if_false]
          exact Or.inr ⟨hdq', Or.inr extract_movedTasksReply, htsne⟩
      · have hts0 : ts.length = 0 := by omega
        simp only [hts, if_false]
        rw [ensureStep2to4_empty r htasks]
        exact Or.inl htasks
  · have hg' : (r.tasks.isEmpty && r.reply != "") = false := by
      cases h2 : (r.tasks.isEmpty && r.reply != "")
      · rfl
      · exact absurd h2 hg
    rw [hg']
    simp only [Bool.false_eq_true, if_false]
    by_cases hne : r.tasks = []
    · rw [ensureStep2to4_empty r hne]
      exact Or.inl hne
    · by_cases hdq : detectQuestionsInTasks r.tasks = true
      · unfold ensureStep2to4
        have hlen : 0 < r.tasks.length := List.length_pos.mpr hne
        simp [hlen, hdq]
      · have hdq' : detectQuestionsInTasks r.tasks = false := by
          cases h2 : detectQuestionsInTasks r.tasks
          · rfl
          · exact absurd h2 hdq
        rw [ensureStep2to4_not_questions r hne hdq']
        by_cases hrr : (r.reply != "" && (extractTasksFromReply r.reply).isSome) = true
        · rw [if_pos hrr]
          exact Or.inr ⟨hdq', Or.inr extract_preparedTasksReply, hne⟩
        · have hrr' : (r.reply != "" && (extractTasksFromReply r.reply).isSome) = false := by
            cases h2 : (r.reply != "" && (extractTasksFromReply r.reply).isSome)
            · rfl
            · exact absurd h2 hrr
          rw [hrr']
          simp only [Bool.false_eq_true, if_false]
          refine Or.inr ⟨hdq', ?_, hne⟩
          rcases Bool.and_eq_false_iff.mp hrr' with h2 | h2
          · left
            simpa using h2
          · right
            cases h3 : extractTasksFromReply r.reply with
            | none => rfl
            | some ts => rw [h3] at h2; simp at h2

theorem string_data_append (a b : String) : (a ++ b).data = a.data ++ b.data := rfl

theorem list_get?_set_ne {α : Type} (l : List α) (a : α) :
    ∀ (i j : Nat), i ≠ j → (l.set i a).get? j = l.get? j := by
  induction l with
  | nil => intro i j _; cases i <;> rfl
  | cons x xs ih =>
    intro i j h
    cases i with
    | zero =>
      cases j with
      | zero => exact absurd rfl h
      | succ j => rfl
    | succ i =>
      cases j with
      | zero => rfl
      | succ j =>
        show (xs.set i a).get? j = xs.get? j
        exact ih i j (fun hh => h (by rw [hh]))

theorem list_get?_set_self {α : Type} (l : List α) (a : α) :
    ∀ i, i < l.length → (l.set i a).get? i = some a := by
  induction l with
  | nil => intro i h; simp at h
  | cons x xs ih =>
    intro i h
    cases i with
    | zero => rfl
    | succ i =>
      show (xs.set i a).get? i = some a
      exact ih i (by simpa using h)

theorem forceChangeIfNoop_differs (orig u : TaskE) :
    (forceChangeIfNoop orig u).title ≠ orig.title
    ∨ (forceChangeIfNoop orig u).description ≠ orig.description
    ∨ (forceChangeIfNoop orig u).timeEstimate ≠ orig.timeEstimate := by
  unfold forceChangeIfNoop
  split
  case isTrue h => exact h
  case isFalse h =>
    push_neg at h
    obtain ⟨h1, _, _⟩ := h
    left
    dsimp only
    rw [h1]
    intro hcontr
    have hlen := congrArg String.length hcontr
    rw [String.length_append, show ("Updated: " : String).length = 9 from rfl] at hlen
    omega

/-- The assembler creates a `sessionId` property only on the conversion
branch, which requires a positive questionnaire classification of the
incoming tasks. -/
theorem ensure_sidProp_preserved (r : Response)
    (h : r.tasks = [] ∨ detectQuestionsInTasks r.tasks = false) :
    (ensureTasksInTasksArray r).sidProp = r.sidProp := by
  unfold ensureTasksInTasksArray
  by_cases hg : (r.tasks.isEmpty && r.reply != "") = true
  · rw [hg]
    simp only [if_true]
    cases hx : extractTasksFromReply r.reply with
    | none =>
      obtain ⟨ha, _⟩ := bool_and_true hg
      exact ensureStep2to4_sidProp r (Or.inl (List.isEmpty_iff.mp ha))
    | some ts =>
      by_cases hts : ts.length > 0
      · simp only [hts, if_true]
        by_cases hdq : detectQuestionsInTasks ts = true
        · simp only [hdq, if_true]
        · have hdq' : detectQuestionsInTasks ts = false := by
            cases h2 : detectQuestionsInTasks ts
            · rfl
            · exact absurd h2 hdq
          simp only [hdq', Bool.false_eq_true, if_false]
          exact ensureStep2to4_sidProp ⟨ts, movedTasksReply, r.sidProp⟩ (Or.inr hdq')
      · simp only [hts, if_false]
        obtain ⟨ha, _⟩ := bool_and_true hg
        exact ensureStep2to4_sidProp r (Or.inl (List.isEmpty_iff.mp ha))
  · have hg' : (r.tasks.isEmpty && r.reply != "") = false := by
      cases h2 : (r.tasks.isEmpty && r.reply != "")
      · rfl
      · exact absurd h2 hg
    rw [hg']
    simp only [Bool.false_eq_true, if_false]
    exact ensureStep2to4_sidProp r h

/-! ## Claim C1 -/

/-- C1 (counterexample): the reachable questioning-phase response
`{tasks: [], reply: "1. Improve the homepage load speed today"}` leaves the
Response Assembler with a tasks array of length 1 — neither 0 nor 3 — and
its single task has an empty description, falsifying the claimed shape
invariant. -/
theorem c1_shape_invariant_counterexample :
    ReachableResponse ⟨[], "1. Improve the homepage load speed today", false⟩
    ∧ (ensureTasksInTasksArray
        ⟨[], "1. Improve the homepage load speed today", false⟩).tasks.length = 1
    ∧ ∃ t ∈ (ensureTasksInTasksArray
        ⟨[], "1. Improve the homepage load speed today", false⟩).tasks,
        t.description = "" :=
  ⟨ReachableResponse.questioning _, by decide, by decide⟩

/-- C1 (amended): for every reachable controller output that already
carries a non-empty tasks array when it reaches the Response Assembler, the
assembler's result has a tasks array of length 0 or exactly 3, and every
task in it has non-empty title, description and timeEstimate.  (Responses
whose tasks the assembler itself recovers from the reply text escape this:
they can surface with any positive length and with empty descriptions.) -/
theorem c1_shape_invariant_amended (r : Response) (hr : ReachableResponse r)
    (hne : r.tasks ≠ []) :
    ((ensureTasksInTasksArray r).tasks.length = 0
     ∨ (ensureTasksInTasksArray r).tasks.length = 3)
    ∧ ∀ t ∈ (ensureTasksInTasksArray r).tasks,
        t.title ≠ "" ∧ t.description ≠ "" ∧ t.timeEstimate ≠ "" := by
  cases hr with
  | questioning reply => exact absurd rfl hne
  | generated raw tt reply hraw hreply hq =>
    obtain ⟨hl, hwf⟩ := validatedTaskSet_shape raw tt hraw
    have hne2 : validatedTaskSet raw tt ≠ [] := by
      intro hh; rw [hh] at hl; simp at hl
    have hpass := ensure_passthrough ⟨validatedTaskSet raw tt, reply, false⟩ hne2 hq
      (by
        rcases hreply with h | h <;> rw [h]
        · exact Or.inr extract_generatedTasksReply
        · exact Or.inr extract_updatedTasksReply)
    rw [hpass]
    exact ⟨Or.inr hl, hwf⟩
  | fallback tt reply hreply =>
    have hcne : getFallbackTasksByType tt ≠ [] := by
      intro hh
      have hl := catalog_length tt
      rw [hh] at hl
      simp at hl
    have hpass := ensure_passthrough ⟨getFallbackTasksByType tt, reply, false⟩ hcne
      (catalog_not_questions tt)
      (by
        rcases hreply with h | h <;> rw [h]
        · exact Or.inr extract_fallbackUpdateReply
        · exact Or.inr extract_fallbackGenerateReply)
    rw [hpass]
    exact ⟨Or.inr (catalog_length tt), catalog_wellformed tt⟩

theorem c1_shape_invariant_amended_witness :
    (ensureTasksInTasksArray
        ⟨getFallbackTasksByType (some "website"), fallbackGenerateReply, false⟩).tasks.length = 0
    ∨ (ensureTasksInTasksArray
        ⟨getFallbackTasksByType (some "website"), fallbackGenerateReply, false⟩).tasks.length = 3 :=
  (c1_shape_invariant_amended _
    (ReachableResponse.fallback (some "website") _ (Or.inr rfl)) (by decide)).1

/-! ## Claim C2 -/

/-- C2 (counterexample): on the empty candidate list the classifier
returns `false` (explicit guard) while the claimed rule is satisfied — its
second disjunct reads `0 ≥ ceil(0/2) = 0`.  So "returns true exactly when
…" fails at `[]`. -/
theorem c2_questionnaire_rule_counterexample :
    detectQuestionsInTasks [] = false ∧ questionnaireSpecFormula [] = true := by
  exact ⟨rfl, rfl⟩

/-- C2 (amended): for every NON-EMPTY list of candidate tasks,
`detectQuestionsInTasks` returns true exactly when
`(questionCount + userQueryCount) > taskCount`, or
`(questionCount + userQueryCount) ≥ ceil(n/2)`, or every description is
under 30 characters and at least one question indicator exists, with the
counts computed from the fixed pattern sets. -/
theorem c2_questionnaire_rule (tasks : List Task) (h : tasks ≠ []) :
    detectQuestionsInTasks tasks = questionnaireSpecFormula tasks := by
  have hne : tasks.isEmpty = false := tasks_isEmpty_false h
  have hceil : jsCeilHalf tasks.length = ceilHalf tasks.length := by
    unfold jsCeilHalf ceilHalf; omega
  unfold detectQuestionsInTasks questionnaireSpecFormula
  rw [hne]
  simp only [Bool.false_eq_true, if_false, hceil]

theorem c2_questionnaire_rule_witness :
    detectQuestionsInTasks [⟨"What is your goal?", "", ""⟩]
      = questionnaireSpecFormula [⟨"What is your goal?", "", ""⟩] :=
  c2_questionnaire_rule _ (by decide)

/-! ## Claim C3 -/

/-- C3 (counterexample): the Response Assembler is not idempotent.  On
`{tasks: [⟨"Improve your speed", "", "1 hour"⟩], reply: ""}` the first
application converts the question-like task into a numbered reply; the
second application re-extracts a task from that reply and moves it back
into the tasks array, changing the response again. -/
theorem c3_idempotence_counterexample :
    ensureTasksInTasksArray (ensureTasksInTasksArray
        ⟨[⟨"Improve your speed", "", "1 hour"⟩], "", false⟩)
      ≠ ensureTasksInTasksArray ⟨[⟨"Improve your speed", "", "1 hour"⟩], "", false⟩ := by
  decide

/-- C3 (amended): re-assembly is a no-op on every first-pass output that
still carries a non-empty tasks array; only the questionnaire-conversion
output (whose tasks array is empty and whose reply is a rendered numbered
list) can change under a second application. -/
theorem c3_idempotence_amended (r : Response)
    (h : (ensureTasksInTasksArray r).tasks ≠ []) :
    ensureTasksInTasksArray (ensureTasksInTasksArray r) = ensureTasksInTasksArray r := by
  rcases ensure_cases r with hc | ⟨hq, hrep, hne⟩
  · exact absurd hc h
  · exact ensure_passthrough _ hne hq hrep

theorem c3_idempotence_amended_witness :
    ensureTasksInTasksArray (ensureTasksInTasksArray c3WitnessResponse)
      = ensureTasksInTasksArray c3WitnessResponse :=
  c3_idempotence_amended c3WitnessResponse (by decide)

/-! ## Claim C4 -/

/-- C4: an edit targeting index `i` of an existing task list leaves every
other index byte-for-byte unchanged (same length, identical entries), and
the task at `i` differs from its pre-edit value in at least one of title,
description, timeEstimate — when the model's edit is field-equal to the
original, the no-op safeguard prefixes the title with `Updated: ` and
appends a note to the description. -/
theorem c4_edit_isolation (existingTasks : List TaskE) (i : Nat) (raw : RawEditedTask)
    (hi : i < existingTasks.length) :
    (applyTaskEdit existingTasks i raw).length = existingTasks.length
    ∧ (∀ j, j ≠ i → (applyTaskEdit existingTasks i raw).get? j = existingTasks.get? j)
    ∧ (((applyTaskEdit existingTasks i raw).getD i ⟨none, "", "", ""⟩).title
         ≠ (existingTasks.getD i ⟨none, "", "", ""⟩).title
       ∨ ((applyTaskEdit existingTasks i raw).getD i ⟨none, "", "", ""⟩).description
         ≠ (existingTasks.getD i ⟨none, "", "", ""⟩).description
       ∨ ((applyTaskEdit existingTasks i raw).getD i ⟨none, "", "", ""⟩).timeEstimate
         ≠ (existingTasks.getD i ⟨none, "", "", ""⟩).timeEstimate) := by
  refine ⟨by simp [applyTaskEdit], ?_, ?_⟩
  · intro j hj
    unfold applyTaskEdit
    exact list_get?_set_ne existingTasks _ i j (fun hh => hj (by rw [hh]))
  · have hset : (applyTaskEdit existingTasks i raw).get? i
        = some (forceChangeIfNoop (existingTasks.getD i ⟨none, "", "", ""⟩)
            (updatedTaskOf (existingTasks.getD i ⟨none, "", "", ""⟩) raw)) := by
      unfold applyTaskEdit
      exact list_get?_set_self existingTasks _ i hi
    have hD : (applyTaskEdit existingTasks i raw).getD i ⟨none, "", "", ""⟩
        = forceChangeIfNoop (existingTasks.getD i ⟨none, "", "", ""⟩)
            (updatedTaskOf (existingTasks.getD i ⟨none, "", "", ""⟩) raw) := by
      unfold List.getD
      rw [hset]
      rfl
    rw [hD]
    exact forceChangeIfNoop_differs _ _

theorem c4_edit_isolation_witness :
    (applyTaskEdit c4ExampleTasks 1 c4ExampleRaw).get? 0 = c4ExampleTasks.get? 0
    ∧ (applyTaskEdit c4ExampleTasks 1 c4ExampleRaw).get? 2 = c4ExampleTasks.get? 2
    ∧ (((applyTaskEdit c4ExampleTasks 1 c4ExampleRaw).getD 1 ⟨none, "", "", ""⟩).title
         ≠ (c4ExampleTasks.getD 1 ⟨none, "", "", ""⟩).title
       ∨ ((applyTaskEdit c4ExampleTasks 1 c4ExampleRaw).getD 1 ⟨none, "", "", ""⟩).description
         ≠ (c4ExampleTasks.getD 1 ⟨none, "", "", ""⟩).description
       ∨ ((applyTaskEdit c4ExampleTasks 1 c4ExampleRaw).getD 1 ⟨none, "", "", ""⟩).timeEstimate
         ≠ (c4ExampleTasks.getD 1 ⟨none, "", "", ""⟩).timeEstimate) :=
  ⟨(c4_edit_isolation c4ExampleTasks 1 c4ExampleRaw (by decide)).2.1 0 (by decide),
   (c4_edit_isolation c4ExampleTasks 1 c4ExampleRaw (by decide)).2.1 2 (by decide),
   (c4_edit_isolation c4ExampleTasks 1 c4ExampleRaw (by decide)).2.2⟩

/-! ## Claim C5 -/

/-- C5 (counterexample): not every Language Model Gateway failure inside a
task-generation or task-editing branch is caught locally.  In the
task-modification branch of `processMessage` (src/index.js lines 505-589)
the gateway call at line 515 sits outside the `try` that only begins at
line 524, so a thrown or timed-out call propagates to the `/chat`
handler's 500 instead of yielding the Fallback Task Catalog. -/
theorem c5_failure_fallback_counterexample :
    processTaskModification (some "website") GatewayResult.failure
      = Except.error ()
    ∧ processTaskModification (some "website") GatewayResult.failure
      ≠ Except.ok { tasks := getFallbackTasksByType (some "website"),
                    reply := fallbackUpdateReply, sidProp := false } :=
  ⟨rfl, fun h => Except.noConfusion h⟩

/-- C5 (amended): the `generateTasks` branch (part_001) and both catches of
`handleTaskEditing` (part_003) recover every gateway failure — thrown call,
timeout or unparseable JSON content — with the Fallback Task Catalog entry
for the session's domain and a non-empty reply, and in index.js's
task-modification branch an unparseable completion is likewise caught and
answered with the catalog; only a gateway call that throws in that
task-modification branch escapes, propagating to the caller as an error
(the `/chat` 500). -/
theorem c5_failure_fallback :
    (∀ (tt : Option String) (gw : GatewayResult),
        gw = GatewayResult.failure ∨ gw = GatewayResult.ok none →
        (generateTasks tt gw).tasks = getFallbackTasksByType tt
        ∧ (generateTasks tt gw).reply ≠ "")
    ∧ (∀ (tt : Option String) (existingTasks : List TaskE) (i : Nat),
        (handleSpecificTaskEdit tt existingTasks i EditGatewayResult.failure).tasks
          = catalogTasksE tt
        ∧ (handleSpecificTaskEdit tt existingTasks i EditGatewayResult.failure).reply ≠ "")
    ∧ (∀ tt : Option String,
        (handleTaskEditingOuterCatch tt).tasks = catalogTasksE tt
        ∧ (handleTaskEditingOuterCatch tt).reply ≠ "")
    ∧ (∀ tt : Option String,
        processTaskModification tt (GatewayResult.ok none)
          = Except.ok { tasks := getFallbackTasksByType tt,
                        reply := fallbackUpdateReply, sidProp := false }
        ∧ fallbackUpdateReply ≠ "")
    ∧ (∀ tt : Option String,
        processTaskModification tt GatewayResult.failure = Except.error ()) := by
  refine ⟨?_, ?_, ?_, fun tt => ⟨rfl, by decide⟩, fun tt => rfl⟩
  · rintro tt gw (rfl | rfl)
    · refine ⟨rfl, ?_⟩
      show ("I encountered an error while generating tasks. Here are some general suggestions instead." : String) ≠ ""
      decide
    · refine ⟨rfl, ?_⟩
      show ("I had some trouble generating custom tasks. Here are some suggestions to get you started." : String) ≠ ""
      decide
  · intro tt existingTasks i
    refine ⟨rfl, ?_⟩
    show ("I encountered an error while trying to update task. Here are some alternatives." : String) ≠ ""
    decide
  · intro tt
    refine ⟨rfl, ?_⟩
    show ("I encountered an error while trying to update the tasks. Here are some alternatives." : String) ≠ ""
    decide

theorem c5_failure_fallback_witness :
    (generateTasks (some "website") GatewayResult.failure).tasks
      = getFallbackTasksByType (some "website") :=
  (c5_failure_fallback.1 (some "website") GatewayResult.failure (Or.inl rfl)).1

/-! ## Claim C6 -/

/-- C6: for every `taskType` — the five known domains as well as any
unknown value including `null` — `getFallbackTasksByType` returns exactly 3
tasks with non-empty title, description and timeEstimate, and every value
other than the four explicitly-cased domains receives the general set. -/
theorem c6_fallback_completeness (taskType : Option String) :
    (getFallbackTasksByType taskType).length = 3
    ∧ (∀ t ∈ getFallbackTasksByType taskType,
        t.title ≠ "" ∧ t.description ≠ "" ∧ t.timeEstimate ≠ "")
    ∧ (taskType ≠ some "website" → taskType ≠ some "business" →
       taskType ≠ some "education" → taskType ≠ some "personal" →
       getFallbackTasksByType taskType = generalFallbackTasks) := by
  refine ⟨catalog_length taskType, catalog_wellformed taskType, ?_⟩
  intro h1 h2 h3 h4
  unfold getFallbackTasksByType
  rw [if_neg h1, if_neg h2, if_neg h3, if_neg h4]

theorem c6_fallback_completeness_witness :
    getFallbackTasksByType (some "banana") = generalFallbackTasks
    ∧ (getFallbackTasksByType none).length = 3 :=
  ⟨(c6_fallback_completeness (some "banana")).2.2
      (by decide) (by decide) (by decide) (by decide),
   (c6_fallback_completeness none).1⟩

/-! ## Claim C7 -/

/-- C7: `isReadyForTasks` returns true exactly when the latest user message
contains one of the explicit task-request phrases, or the transcript holds
at least 2 user messages and the assistant has asked at least 2 questions;
and `addMessage` counts an assistant message as a question exactly when its
content ends in `?` or contains one of the lead-ins `Could you`/`Can you`. -/
theorem c7_readiness (s : Session) :
    (isReadyForTasks s = true ↔
      hasExplicitTaskRequest s = true
      ∨ (userMessageCount s ≥ 2 ∧ s.questionCount ≥ 2))
    ∧ (∀ m : Message,
        (addMessage s m).questionCount =
          if m.role = Role.assistant
              ∧ (endsWithChar m.content.data '?' = true
                 ∨ containsLit "Could you".data m.content.data = true
                 ∨ containsLit "Can you".data m.content.data = true)
          then s.questionCount + 1 else s.questionCount) := by
  constructor
  · unfold isReadyForTasks hasExplicitTaskRequest lastUserMessageLower userMessageCount
    simp [Bool.or_eq_true, Bool.and_eq_true, decide_eq_true_iff]
  · intro m
    have hiff : isQuestionMessage m = true ↔
        (m.role = Role.assistant
         ∧ (endsWithChar m.content.data '?' = true
            ∨ containsLit "Could you".data m.content.data = true
            ∨ containsLit "Can you".data m.content.data = true)) := by
      unfold isQuestionMessage
      simp only [Bool.and_eq_true, Bool.or_eq_true, beq_iff_eq]
      tauto
    show (if isQuestionMessage m then s.questionCount + 1 else s.questionCount) = _
    exact if_congr hiff rfl rfl

theorem c7_readiness_witness : isReadyForTasks c7WitnessSession = true :=
  (c7_readiness c7WitnessSession).1.mpr (Or.inr ⟨by decide, by decide⟩)

/-! ## Claim C8 -/

/-- C8: the session domain is classified exactly once, from the first user
message appended while `taskType` is still unassigned; `addMessage`,
`markTasksGenerated` and `resetQuestionCount` never change an assigned
domain; and a cleared session id resolves to the fresh session, whose
domain is unassigned — only this clear-then-recreate path can yield a
different domain. -/
theorem c8_domain_immutability :
    (∀ (s : Session) (m : Message) (d : String),
        s.taskType = some d → (addMessage s m).taskType = some d)
    ∧ (∀ (s : Session) (m : Message),
        s.taskType = none → m.role = Role.user →
        (addMessage s m).taskType = some (classifyTaskType m.content))
    ∧ (∀ s : Session, (markTasksGenerated s).taskType = s.taskType)
    ∧ (∀ s : Session, (resetQuestionCount s).taskType = s.taskType)
    ∧ freshSession.taskType = none
    ∧ (∀ (store : SessionStore) (sessionId : String),
        getSession (clearSession store sessionId) sessionId = freshSession) := by
  refine ⟨?_, ?_, fun _ => rfl, fun _ => rfl, rfl, ?_⟩
  · intro s m d h
    show (if s.taskType = none ∧ m.role = Role.user
          then some (classifyTaskType m.content) else s.taskType) = some d
    rw [if_neg, h]
    rintro ⟨h1, _⟩
    rw [h] at h1
    exact Option.noConfusion h1
  · intro s m h1 h2
    show (if s.taskType = none ∧ m.role = Role.user
          then some (classifyTaskType m.content) else s.taskType) = _
    rw [if_pos ⟨h1, h2⟩]
  · intro store sessionId
    unfold getSession clearSession
    simp

theorem c8_domain_immutability_witness :
    (addMessage ⟨[initialSystemMessage], some "general", 0, false, false⟩
        ⟨Role.user, "now my website please"⟩).taskType = some "general" :=
  c8_domain_immutability.1 _ _ _ rfl

/-! ## Claim C9 -/

/-- C9 (counterexample): the numbered-list branch of the prose extractor
returns an 86-character title unreplaced — the `Task {n}` substitution for
empty or over-50-character titles happens only in the task-header-section
branch, so the claim as stated ("in all of its parsing branches") is
false. -/
theorem c9_title_substitute_counterexample :
    extractTasksFromReply
        "1. Implement a fully automated continuous integration pipeline for the whole organization"
      = some [⟨"Implement a fully automated continuous integration pipeline for the whole organization",
              "", "1 hour"⟩]
    ∧ ("Implement a fully automated continuous integration pipeline for the whole organization" : String).length > 50
    ∧ ("Implement a fully automated continuous integration pipeline for the whole organization" : String) ≠ "Task 1" :=
  ⟨by decide, by decide, by decide⟩

theorem titleSubstitute_spec (t1 : Str) (i : Nat) :
    (⟨if t1.isEmpty || t1.length > 50
      then "Task ".data ++ (toString (i + 1)).data else t1⟩ : String) ≠ ""
    ∧ ((⟨if t1.isEmpty || t1.length > 50
         then "Task ".data ++ (toString (i + 1)).data else t1⟩ : String).length ≤ 50
       ∨ (⟨if t1.isEmpty || t1.length > 50
           then "Task ".data ++ (toString (i + 1)).data else t1⟩ : String)
           = "Task " ++ toString (i + 1)) := by
  split
  case isTrue h =>
    constructor
    · intro hh
      exact List.noConfusion (congrArg String.data hh)
    · right
      apply String.ext
      rw [string_data_append]
  case isFalse h =>
    simp only [Bool.or_eq_true, decide_eq_true_eq, not_or] at h
    obtain ⟨h1, h2⟩ := h
    constructor
    · intro hh
      apply h1
      have hd : t1 = [] := congrArg String.data hh
      rw [hd]
      rfl
    · left
      exact Nat.le_of_not_lt h2

theorem parseTaskSection_title (sec : Str) (i : Nat) :
    (parseTaskSection sec i).title ≠ ""
    ∧ ((parseTaskSection sec i).title.length ≤ 50
       ∨ (parseTaskSection sec i).title = "Task " ++ toString (i + 1)) := by
  unfold parseTaskSection
  dsimp only
  exact titleSubstitute_spec _ i

/-- When the extractor returns through the task-header-section branch
(the section split is non-empty), its result is exactly the section
parser's output. -/
theorem extract_section_branch (reply : String) (ts : List Task)
    (hsec : taskSectionsOf reply.data ≠ [])
    (hex : extractTasksFromReply reply = some ts) :
    ts = sectionsToTasks 0 (taskSectionsOf reply.data) := by
  have hne : (taskSectionsOf reply.data).isEmpty = false := by
    cases hq : (taskSectionsOf reply.data).isEmpty
    · rfl
    · exact absurd (List.isEmpty_iff.mp hq) hsec
  unfold extractTasksFromReply at hex
  by_cases h0 : reply = ""
  · rw [if_pos h0] at hex
    exact Option.noConfusion hex
  · rw [if_neg h0] at hex
    by_cases h1 : hasTaskIndicators reply.data = true
    · simp only [h1, Bool.not_true, Bool.false_eq_true, if_false, hne, Bool.not_false,
        if_true] at hex
      by_cases h2 : (sectionsToTasks 0 (taskSectionsOf reply.data)).isEmpty = true
      · simp only [h2, Bool.not_true, Bool.false_eq_true, if_false] at hex
        exact Option.noConfusion hex
      · have h2f : (sectionsToTasks 0 (taskSectionsOf reply.data)).isEmpty = false := by
          cases hq : (sectionsToTasks 0 (taskSectionsOf reply.data)).isEmpty
          · rfl
          · exact absurd hq h2
        simp only [h2f, Bool.not_false, if_true] at hex
        injection hex with hinj
        exact hinj.symm
    · have h1f : hasTaskIndicators reply.data = false := by
        cases hq : hasTaskIndicators reply.data
        · rfl
        · exact absurd hq h1
      simp only [h1f, Bool.not_false, if_true] at hex
      exact Option.noConfusion hex

/-- C9 (amended): the `Task {n}` substitution for empty or over-50-character
titles is performed in the task-header-section branch, and there it is
exhaustive: every task the section parser produces — and hence every task
list the extractor returns through that branch — has a non-empty title that
is at most 50 characters long or the synthesized `Task {n}` (n the task's
1-based position).  The `**Description:**` and numbered-list branches
return extracted titles unchanged. -/
theorem c9_title_substitute_amended :
    (∀ (secs : List Str) (i0 j : Nat) (h : j < (sectionsToTasks i0 secs).length),
      ((sectionsToTasks i0 secs).get ⟨j, h⟩).title ≠ ""
      ∧ (((sectionsToTasks i0 secs).get ⟨j, h⟩).title.length ≤ 50
         ∨ ((sectionsToTasks i0 secs).get ⟨j, h⟩).title = "Task " ++ toString (i0 + j + 1)))
    ∧ (∀ (reply : String) (ts : List Task),
        taskSectionsOf reply.data ≠ [] →
        extractTasksFromReply reply = some ts →
        ∀ (j : Nat) (h : j < ts.length),
          (ts.get ⟨j, h⟩).title ≠ ""
          ∧ ((ts.get ⟨j, h⟩).title.length ≤ 50
             ∨ (ts.get ⟨j, h⟩).title = "Task " ++ toString (j + 1))) := by
  have hmain : ∀ (secs : List Str) (i0 j : Nat) (h : j < (sectionsToTasks i0 secs).length),
      ((sectionsToTasks i0 secs).get ⟨j, h⟩).title ≠ ""
      ∧ (((sectionsToTasks i0 secs).get ⟨j, h⟩).title.length ≤ 50
         ∨ ((sectionsToTasks i0 secs).get ⟨j, h⟩).title = "Task " ++ toString (i0 + j + 1)) := by
    intro secs
    induction secs with
    | nil => intro i0 j h; simp [sectionsToTasks] at h
    | cons sec rest ih =>
      intro i0 j h
      cases j with
      | zero =>
        simpa [sectionsToTasks] using parseTaskSection_title sec i0
      | succ j =>
        have hh : j < (sectionsToTasks (i0 + 1) rest).length := by
          have := h
          simp only [sectionsToTasks, List.length_cons] at this
          omega
        have harith : i0 + 1 + j + 1 = i0 + (j + 1) + 1 := by omega
        have hres := ih (i0 + 1) j hh
        rw [harith] at hres
        simpa [sectionsToTasks] using hres
  refine ⟨hmain, ?_⟩
  intro reply ts hs hex j h
  have hts := extract_section_branch reply ts hs hex
  subst hts
  have hres := hmain (taskSectionsOf reply.data) 0 j h
  simpa using hres

theorem c9_title_substitute_amended_witness :
    ((sectionsToTasks 0 ["Build the landing page mockup".data]).get ⟨0, by decide⟩).title ≠ ""
    ∧ (((sectionsToTasks 0 ["Build the landing page mockup".data]).get ⟨0, by decide⟩).title.length ≤ 50
       ∨ ((sectionsToTasks 0 ["Build the landing page mockup".data]).get ⟨0, by decide⟩).title
           = "Task " ++ toString (0 + 0 + 1)) :=
  c9_title_substitute_amended.1 ["Build the landing page mockup".data] 0 0 (by decide)

/-! ## Claim C10 -/

/-- C10: for every reachable controller output and non-empty session id,
the serialized `POST /chat` 200 body contains that session id (the
assembler's question-conversion branch — which would shadow it with an
`undefined` property — is never taken on reachable outputs, because
`processMessage` only surfaces non-empty task arrays it has already
classified as non-questions, and the fallback catalogs classify as
non-questions too). -/
theorem c10_sessionId_present (r : Response) (currentSessionId : String)
    (hr : ReachableResponse r) (_hcur : currentSessionId ≠ "") :
    chatResponseSessionId currentSessionId (ensureTasksInTasksArray r)
      = some currentSessionId
    ∧ some currentSessionId ≠ (none : Option String) := by
  have h0 : r.sidProp = false := by cases hr <;> rfl
  have hd : r.tasks = [] ∨ detectQuestionsInTasks r.tasks = false := by
    cases hr with
    | questioning reply => exact Or.inl rfl
    | generated raw tt reply hraw hreply hq => exact Or.inr hq
    | fallback tt reply hreply => exact Or.inr (catalog_not_questions tt)
  have hsid : (ensureTasksInTasksArray r).sidProp = false := by
    rw [ensure_sidProp_preserved r hd, h0]
  unfold chatResponseSessionId
  rw [hsid]
  exact ⟨rfl, by simp⟩

theorem c10_sessionId_present_witness :
    chatResponseSessionId "abc123"
        (ensureTasksInTasksArray ⟨[], "Could you tell me more about your goals?", false⟩)
      = some "abc123" :=
  (c10_sessionId_present _ _ (ReachableResponse.questioning _) (by decide)).1

end GptAgent
